import Mathlib

set_option linter.unusedVariables false
set_option maxRecDepth 100000

/-!
Shallow embedding of `src/tcp_mario.c` (the "TCP Mario" congestion-control
module) and proofs about it.

The module's state is a handful of `u32` globals (`bandwidth`, `factor`,
`base_cwnd`, `rtt`, `rtt_cnt`) plus the per-socket field `tp->snd_cwnd`
that the hooks write.  We model `u32` values as `Nat` reduced modulo
`2 ^ 32` wherever the C code performs arithmetic that could wrap, and the
signed `s32` argument `rtt_us` as `Int` with C's truncating division.
Undefined behaviour (division by zero, an oversized shift count) is made
explicit with `Except UB`.
-/

/-- The 32-bit modulus, for the kernel's `u32` arithmetic. -/
def U32 : Nat := 4294967296

/-- Constant from the source: `#define SAMPLE_SIZE 100`. -/
def SAMPLE_SIZE : Nat := 100

/-- Constant from the source: `#define INIT_FACTOR 10`. -/
def INIT_FACTOR : Nat := 10

/-- The module's mutable state: the five `u32` globals of `tcp_mario.c`
together with the one socket field (`tp->snd_cwnd`) the hooks touch. -/
structure MarioState where
  bandwidth : Nat
  factor : Nat
  base_cwnd : Nat
  rtt : Nat
  rtt_cnt : Nat
  snd_cwnd : Nat
deriving DecidableEq, Repr

/-- Module-load state: `static u32 bandwidth` (zero-initialised),
`static u32 factor = INIT_FACTOR`, the remaining globals zero. -/
def s0 : MarioState := ⟨0, INIT_FACTOR, 0, 0, 0, 0⟩

/-- Undefined behaviour the C recompute expression can run into. -/
inductive UB where
  | divByZero
  | shiftTooLarge
deriving DecidableEq, Repr

/-- C's `rtt_us /= 1000` on an `s32`: truncating (round-toward-zero) division. -/
def ms_of_us (rtt_us : Int) : Int := Int.tdiv rtt_us 1000

/-- The recompute expression at line 98 of the source,

  `base_cwnd = 1 + bandwidth << 10 * avg_rtt/(factor * 1000);`

with C operator precedence (`+`, `*`, `/` all bind tighter than `<<`),
so it parses as `(1 + bandwidth) << ((10 * avg_rtt) / (factor * 1000))`,
every operation on `u32`.  A zero divisor (e.g. `factor = 0`) is a
division by zero, and a shift count of 32 or more is likewise undefined
for `u32`. -/
def compute_target (bandwidth avg_rtt factor : Nat) : Except UB Nat :=
  let divisor := (factor * 1000) % U32
  if divisor = 0 then Except.error UB.divByZero
  else
    let shift := ((10 * avg_rtt) % U32) / divisor
    if 32 ≤ shift then Except.error UB.shiftTooLarge
    else Except.ok ((((1 + bandwidth) % U32) <<< shift) % U32)

/-- Hook `tcp_mario_init`: `base_cwnd = bandwidth << 7; rtt = 0;
rtt_cnt = 0; tp->snd_cwnd = base_cwnd;` -/
def tcp_mario_init (s : MarioState) : MarioState :=
  let bc := (s.bandwidth <<< 7) % U32
  { s with base_cwnd := bc, rtt := 0, rtt_cnt := 0, snd_cwnd := bc }

/-- Hook `tcp_mario_cong_avoid`: `tp->snd_cwnd = base_cwnd;` (the `ack`,
`acked`, `in_flight` arguments are ignored). -/
def tcp_mario_cong_avoid (s : MarioState) (ack acked in_flight : Nat) : MarioState :=
  { s with snd_cwnd := s.base_cwnd }

/-- Hook `tcp_mario_ssthresh`: `tp->snd_cwnd = base_cwnd;
return base_cwnd;` Returned as (new state, return value). -/
def tcp_mario_ssthresh (s : MarioState) : MarioState × Nat :=
  ({ s with snd_cwnd := s.base_cwnd }, s.base_cwnd)

/-- Hook `tcp_mario_undo_cwnd`: `tp->snd_cwnd = base_cwnd;
return tp->snd_cwnd;` -/
def tcp_mario_undo_cwnd (s : MarioState) : MarioState × Nat :=
  ({ s with snd_cwnd := s.base_cwnd }, s.base_cwnd)

/-- Hook `tcp_mario_pkts_acked(sk, num_acked, rtt_us)`:

```
if(rtt_cnt > SAMPLE_SIZE){ return; }
rtt_us /= 1000;
if(rtt_us > 0 && rtt_us < 300){ rtt_cnt++; rtt += rtt_us; }
if(rtt_cnt == SAMPLE_SIZE){
    avg_rtt = rtt/rtt_cnt;
    base_cwnd = 1 + bandwidth << 10 * avg_rtt/(factor * 1000);
}
```

`num_acked` is ignored by the body. -/
def tcp_mario_pkts_acked (s : MarioState) (num_acked : Nat) (rtt_us : Int) :
    Except UB MarioState :=
  if SAMPLE_SIZE < s.rtt_cnt then Except.ok s
  else
    let r := ms_of_us rtt_us
    let s1 := if 0 < r ∧ r < 300 then
        { s with rtt_cnt := (s.rtt_cnt + 1) % U32, rtt := (s.rtt + r.toNat) % U32 }
      else s
    if s1.rtt_cnt = SAMPLE_SIZE then
      match compute_target s1.bandwidth (s1.rtt / s1.rtt_cnt) s1.factor with
      | Except.error e => Except.error e
      | Except.ok bc => Except.ok { s1 with base_cwnd := bc }
    else Except.ok s1

/-- The external events the surrounding stack (and the sysctl interface)
can deliver to the module. -/
inductive Event where
  | init
  | congAvoid (ack acked in_flight : Nat)
  | ssthresh
  | pktsAcked (num_acked : Nat) (rtt_us : Int)
  | undoCwnd
  | setBandwidth (v : Nat)
  | setFactor (v : Nat)
deriving DecidableEq, Repr

/-- One step of the module under an external event.  The sysctl writes
(`proc_dointvec` into a `u32`) store the value modulo `2 ^ 32`. -/
def step (s : MarioState) : Event → Except UB MarioState
  | Event.init => Except.ok (tcp_mario_init s)
  | Event.congAvoid a b c => Except.ok (tcp_mario_cong_avoid s a b c)
  | Event.ssthresh => Except.ok (tcp_mario_ssthresh s).1
  | Event.pktsAcked n us => tcp_mario_pkts_acked s n us
  | Event.undoCwnd => Except.ok (tcp_mario_undo_cwnd s).1
  | Event.setBandwidth v => Except.ok { s with bandwidth := v % U32 }
  | Event.setFactor v => Except.ok { s with factor := v % U32 }

/-- Run a list of events from a state, stopping at undefined behaviour. -/
def run (s : MarioState) : List Event → Except UB MarioState
  | [] => Except.ok s
  | e :: es =>
    match step s e with
    | Except.error u => Except.error u
    | Except.ok s' => run s' es

/-- States reachable from a connection init (on any prior module state)
by any sequence of events. -/
inductive Reachable : MarioState → Prop where
  | init (s : MarioState) : Reachable (tcp_mario_init s)
  | step (s s' : MarioState) (e : Event) :
      Reachable s → step s e = Except.ok s' → Reachable s'

deriving instance DecidableEq for Except

/-- A sample passes the validity filter of `pkts_acked`:
after `rtt_us /= 1000` the value satisfies `rtt_us > 0 && rtt_us < 300`. -/
abbrev sample_ok (rtt_us : Int) : Prop :=
  0 < ms_of_us rtt_us ∧ ms_of_us rtt_us < 300

theorem U32_eq : U32 = 4294967296 := rfl

theorem SAMPLE_SIZE_eq : SAMPLE_SIZE = 100 := rfl

/-- Case analysis of `pkts_acked`: once the count is strictly past the
batch size, the call returns immediately and the state is untouched. -/
theorem pkts_acked_frozen (s : MarioState) (n : Nat) (us : Int)
    (h : SAMPLE_SIZE < s.rtt_cnt) :
    tcp_mario_pkts_acked s n us = Except.ok s := by
  unfold tcp_mario_pkts_acked
  rw [if_pos h]

/-- Case analysis of `pkts_acked`: a rejected sample with the count below
the batch size changes nothing. -/
theorem pkts_acked_invalid_small (s : MarioState) (n : Nat) (us : Int)
    (h : s.rtt_cnt < SAMPLE_SIZE) (hv : ¬ sample_ok us) :
    tcp_mario_pkts_acked s n us = Except.ok s := by
  unfold tcp_mario_pkts_acked
  rw [if_neg (Nat.lt_asymm h)]
  simp only [if_neg hv, if_neg (Nat.ne_of_lt h)]

/-- Case analysis of `pkts_acked`: a valid sample that does not yet fill
the batch is accumulated and nothing else changes. -/
theorem pkts_acked_valid_small (s : MarioState) (n : Nat) (us : Int)
    (h : s.rtt_cnt + 1 < SAMPLE_SIZE) (hv : sample_ok us) :
    tcp_mario_pkts_acked s n us =
      Except.ok { s with rtt_cnt := s.rtt_cnt + 1,
                         rtt := (s.rtt + (ms_of_us us).toNat) % U32 } := by
  have hmod : (s.rtt_cnt + 1) % U32 = s.rtt_cnt + 1 :=
    Nat.mod_eq_of_lt (by have := SAMPLE_SIZE_eq; have := U32_eq; omega)
  unfold tcp_mario_pkts_acked
  rw [if_neg (by omega)]
  simp only [if_pos hv, hmod]
  rw [if_neg (by omega : ¬ (s.rtt_cnt + 1 = SAMPLE_SIZE))]

/-- Case analysis of `pkts_acked`: the valid sample that fills the batch
triggers the recompute of `base_cwnd`. -/
theorem pkts_acked_valid_fill (s : MarioState) (n : Nat) (us : Int)
    (h : s.rtt_cnt + 1 = SAMPLE_SIZE) (hv : sample_ok us) :
    tcp_mario_pkts_acked s n us =
      Except.map
        (fun bc => { s with rtt_cnt := SAMPLE_SIZE,
                            rtt := (s.rtt + (ms_of_us us).toNat) % U32,
                            base_cwnd := bc })
        (compute_target s.bandwidth
          (((s.rtt + (ms_of_us us).toNat) % U32) / SAMPLE_SIZE) s.factor) := by
  have hmod : (s.rtt_cnt + 1) % U32 = s.rtt_cnt + 1 :=
    Nat.mod_eq_of_lt (by have := SAMPLE_SIZE_eq; have := U32_eq; omega)
  unfold tcp_mario_pkts_acked
  rw [if_neg (by have := SAMPLE_SIZE_eq; omega)]
  simp only [if_pos hv]
  rw [hmod, h, if_pos rfl]
  cases compute_target s.bandwidth
      (((s.rtt + (ms_of_us us).toNat) % U32) / SAMPLE_SIZE) s.factor <;>
    rfl

/-- Case analysis of `pkts_acked`: a valid sample arriving with the count
exactly at the batch size is still accumulated (the freeze guard is
strict), pushing the count to 101, and does NOT recompute. -/
theorem pkts_acked_valid_overfill (s : MarioState) (n : Nat) (us : Int)
    (h : s.rtt_cnt = SAMPLE_SIZE) (hv : sample_ok us) :
    tcp_mario_pkts_acked s n us =
      Except.ok { s with rtt_cnt := SAMPLE_SIZE + 1,
                         rtt := (s.rtt + (ms_of_us us).toNat) % U32 } := by
  have hmod : (s.rtt_cnt + 1) % U32 = s.rtt_cnt + 1 :=
    Nat.mod_eq_of_lt (by have := SAMPLE_SIZE_eq; have := U32_eq; omega)
  unfold tcp_mario_pkts_acked
  rw [if_neg (by omega)]
  simp only [if_pos hv]
  rw [hmod, h, if_neg (by have := SAMPLE_SIZE_eq; omega : ¬ (SAMPLE_SIZE + 1 = SAMPLE_SIZE))]

/-- Case analysis of `pkts_acked`: a rejected sample arriving with the
count exactly at the batch size leaves count and sum alone but re-runs
the recompute of `base_cwnd`. -/
theorem pkts_acked_invalid_at_fill (s : MarioState) (n : Nat) (us : Int)
    (h : s.rtt_cnt = SAMPLE_SIZE) (hv : ¬ sample_ok us) :
    tcp_mario_pkts_acked s n us =
      Except.map (fun bc => { s with base_cwnd := bc })
        (compute_target s.bandwidth (s.rtt / SAMPLE_SIZE) s.factor) := by
  unfold tcp_mario_pkts_acked
  rw [if_neg (by omega)]
  simp only [if_neg hv, h, if_pos rfl]
  cases compute_target s.bandwidth (s.rtt / SAMPLE_SIZE) s.factor <;> rfl

/-- When the scale factor is positive, its scaled form does not wrap,
and the average RTT lies below 300 (as every accumulated sample does),
the recompute expression reduces to
`((1 + bandwidth) * 2 ^ (10 * avg / (factor * 1000))) mod 2 ^ 32`:
the inner `u32` reductions are inert and the shift count stays below 32. -/
theorem compute_target_eq (b avg f : Nat) (hf : 0 < f) (hfw : f * 1000 < U32)
    (havg : avg < 300) :
    compute_target b avg f =
      Except.ok (((1 + b) * 2 ^ (10 * avg / (f * 1000))) % U32) := by
  have hU := U32_eq
  have h1 : (f * 1000) % U32 = f * 1000 := Nat.mod_eq_of_lt hfw
  have h2 : (10 * avg) % U32 = 10 * avg := Nat.mod_eq_of_lt (by omega)
  have hf1000 : 1000 ≤ f * 1000 := Nat.le_mul_of_pos_left 1000 hf
  have hshift : 10 * avg / (f * 1000) < 32 :=
    Nat.div_lt_of_lt_mul (by omega)
  unfold compute_target
  simp only [h1, h2]
  rw [if_neg (by omega), if_neg (not_le.mpr hshift)]
  congr 1
  rw [Nat.shiftLeft_eq, Nat.mod_mul_mod]

/-- Running an event list from a reachable state only visits reachable
states. -/
theorem reachable_of_run {s s' : MarioState} {es : List Event}
    (h : Reachable s) (hr : run s es = Except.ok s') : Reachable s' := by
  induction es generalizing s with
  | nil =>
    unfold run at hr
    injection hr with hr
    exact hr ▸ h
  | cons e es ih =>
    unfold run at hr
    cases hstep : step s e with
    | error u => rw [hstep] at hr; cases hr
    | ok s1 =>
      rw [hstep] at hr
      exact ih (Reachable.step s s1 e h hstep) hr

/-- C1 (counterexample): with bandwidth 1000, factor 10 and 100 valid
samples of 50 ms each, the recomputed target is 1001, not the 513 the
claimed formula `1 + (bandwidth << 10) * avg / (factor * 1000)` yields. -/
theorem C1_counterexample :
    run s0 ([Event.setBandwidth 1000, Event.init] ++
        List.replicate 100 (Event.pktsAcked 1 50000)) =
      Except.ok ⟨1000, 10, 1001, 5000, 100, 128000⟩ ∧
    (1001 : Nat) ≠ 513 := by
  exact ⟨by decide, by decide⟩

/-- C1 (amended): by C operator precedence the recompute line parses as
`(1 + bandwidth) << ((10 * avg_rtt) / (factor * 1000))` on `u32`, i.e.
the target is `((1 + bandwidth) * 2 ^ (10*avg/(factor*1000))) mod 2^32`
whenever the factor is positive and unwrapped and the average is in the
valid sample range; on the example (bandwidth 1000, factor 10, avg 50)
this gives 1001. -/
theorem C1_target_formula :
    (∀ b avg f, 0 < f → f * 1000 < U32 → avg < 300 →
      compute_target b avg f =
        Except.ok (((1 + b) * 2 ^ (10 * avg / (f * 1000))) % U32)) ∧
    compute_target 1000 50 10 = Except.ok 1001 :=
  ⟨fun b avg f hf hfw havg => compute_target_eq b avg f hf hfw havg, rfl⟩

/-- C1 (witness): the amended formula applied at bandwidth 2000,
average 50 ms, factor 10. -/
theorem C1_target_formula_witness :
    compute_target 2000 50 10 =
      Except.ok (((1 + 2000) * 2 ^ (10 * 50 / (10 * 1000))) % U32) :=
  C1_target_formula.1 2000 50 10 (by decide) (by decide) (by decide)

/-- C2 (counterexample): `tcp_mario_init` does reset the accumulated sum
`rtt` (here from 5 to 0), contradicting the claim that only the count is
reset. -/
theorem C2_counterexample :
    (tcp_mario_init ⟨0, 10, 0, 5, 3, 0⟩).rtt_cnt = 0 ∧
    ¬ ((tcp_mario_init ⟨0, 10, 0, 5, 3, 0⟩).rtt =
        (⟨0, 10, 0, 5, 3, 0⟩ : MarioState).rtt) := by
  exact ⟨by decide, by decide⟩

/-- C2 (amended): for every prior sampler state, `tcp_mario_init` resets
both the RTT sample count and the accumulated RTT sample sum to zero. -/
theorem C2_init_resets_count_and_sum (s : MarioState) :
    (tcp_mario_init s).rtt_cnt = 0 ∧ (tcp_mario_init s).rtt = 0 :=
  ⟨rfl, rfl⟩

/-- C3 (counterexample): with the count exactly at the batch size (100),
a valid sample is NOT a no-op: the freeze guard `rtt_cnt > SAMPLE_SIZE`
is strict, so the count moves to 101 and the sum grows. -/
theorem C3_counterexample :
    tcp_mario_pkts_acked ⟨0, 10, 0, 5000, 100, 0⟩ 1 50000 =
      Except.ok ⟨0, 10, 0, 5050, 101, 0⟩ ∧
    (⟨0, 10, 0, 5050, 101, 0⟩ : MarioState) ≠ ⟨0, 10, 0, 5000, 100, 0⟩ := by
  exact ⟨by decide, by decide⟩

/-- C3 (amended): for every state whose sample count is strictly past
the batch size, delivering any further RTT sample (valid or not) is a
no-op: the whole state, in particular count, sum and target window, is
unchanged. -/
theorem C3_noop_strictly_past_batch (s : MarioState) (num_acked : Nat)
    (rtt_us : Int) (h : SAMPLE_SIZE < s.rtt_cnt) :
    tcp_mario_pkts_acked s num_acked rtt_us = Except.ok s :=
  pkts_acked_frozen s num_acked rtt_us h

/-- C3 (witness): the amended no-op at a concrete frozen state
(count 101). -/
theorem C3_noop_strictly_past_batch_witness :
    SAMPLE_SIZE < (101 : Nat) ∧
    tcp_mario_pkts_acked ⟨0, 10, 0, 5050, 101, 0⟩ 1 50000 =
      Except.ok ⟨0, 10, 0, 5050, 101, 0⟩ :=
  ⟨by decide, C3_noop_strictly_past_batch ⟨0, 10, 0, 5050, 101, 0⟩ 1 50000 (by decide)⟩

/-- C5: the estimator has no guard on the scale factor: setting
`factor = 0` and completing a batch of 100 valid samples drives the
recompute into `... / (0 * 1000)`, a division by zero. -/
theorem C5_div_by_zero_reachable :
    run s0 ([Event.setFactor 0, Event.setBandwidth 1000, Event.init] ++
        List.replicate 100 (Event.pktsAcked 1 50000)) =
      Except.error UB.divByZero := by
  decide

/-- C8: `cong_avoid`, `ssthresh` and `undo_cwnd` all set the socket's
`snd_cwnd` to the current target `base_cwnd`, and the two that return a
value return exactly that target, whatever arguments the stack passes. -/
theorem C8_controller_overrides (s : MarioState) (ack acked in_flight : Nat) :
    (tcp_mario_cong_avoid s ack acked in_flight).snd_cwnd = s.base_cwnd ∧
    (tcp_mario_ssthresh s).1.snd_cwnd = s.base_cwnd ∧
    (tcp_mario_ssthresh s).2 = s.base_cwnd ∧
    (tcp_mario_undo_cwnd s).1.snd_cwnd = s.base_cwnd ∧
    (tcp_mario_undo_cwnd s).2 = s.base_cwnd :=
  ⟨rfl, rfl, rfl, rfl, rfl⟩

/-- C9: `tcp_mario_init` sets the socket's congestion window to
`bandwidth * 128`, computed in `u32` (i.e. modulo `2 ^ 32`). -/
theorem C9_init_window (s : MarioState) :
    (tcp_mario_init s).snd_cwnd = s.bandwidth * 128 % U32 := by
  show (s.bandwidth <<< 7) % U32 = s.bandwidth * 128 % U32
  rw [Nat.shiftLeft_eq]

/-- Any successful `pkts_acked` call leaves `snd_cwnd` untouched, and
either leaves the sample count alone or — only from a count at most the
batch size — increments it by one. -/
theorem pkts_acked_ok_inv {s s' : MarioState} {n : Nat} {us : Int}
    (h : tcp_mario_pkts_acked s n us = Except.ok s') :
    s'.snd_cwnd = s.snd_cwnd ∧
    (s'.rtt_cnt = s.rtt_cnt ∨
      (s.rtt_cnt ≤ SAMPLE_SIZE ∧ s'.rtt_cnt = s.rtt_cnt + 1)) := by
  have hS := SAMPLE_SIZE_eq
  by_cases h1 : SAMPLE_SIZE < s.rtt_cnt
  · rw [pkts_acked_frozen s n us h1] at h
    injection h with h
    subst h
    exact ⟨rfl, Or.inl rfl⟩
  · by_cases hv : sample_ok us
    · by_cases h2 : s.rtt_cnt + 1 < SAMPLE_SIZE
      · rw [pkts_acked_valid_small s n us h2 hv] at h
        injection h with h
        subst h
        exact ⟨rfl, Or.inr ⟨by omega, rfl⟩⟩
      · by_cases h3 : s.rtt_cnt + 1 = SAMPLE_SIZE
        · rw [pkts_acked_valid_fill s n us h3 hv] at h
          cases hc : compute_target s.bandwidth
              (((s.rtt + (ms_of_us us).toNat) % U32) / SAMPLE_SIZE) s.factor with
          | error u => rw [hc] at h; exact Except.noConfusion h
          | ok bc =>
            rw [hc] at h
            injection h with h
            subst h
            exact ⟨rfl, Or.inr ⟨by omega, by show SAMPLE_SIZE = s.rtt_cnt + 1; omega⟩⟩
        · have h4 : s.rtt_cnt = SAMPLE_SIZE := by omega
          rw [pkts_acked_valid_overfill s n us h4 hv] at h
          injection h with h
          subst h
          exact ⟨rfl, Or.inr ⟨by omega, by show SAMPLE_SIZE + 1 = s.rtt_cnt + 1; omega⟩⟩
    · by_cases h2 : s.rtt_cnt < SAMPLE_SIZE
      · rw [pkts_acked_invalid_small s n us h2 hv] at h
        injection h with h
        subst h
        exact ⟨rfl, Or.inl rfl⟩
      · have h3 : s.rtt_cnt = SAMPLE_SIZE := by omega
        rw [pkts_acked_invalid_at_fill s n us h3 hv] at h
        cases hc : compute_target s.bandwidth (s.rtt / SAMPLE_SIZE) s.factor with
        | error u => rw [hc] at h; exact Except.noConfusion h
        | ok bc =>
          rw [hc] at h
          injection h with h
          subst h
          exact ⟨rfl, Or.inl rfl⟩

/-- C4 (counterexample): after a connection init and 101 valid 50 ms
samples the sample count reaches the reachable value 101, violating the
claimed bound of 100: the freeze guard in `pkts_acked` is strict. -/
theorem C4_counterexample :
    Reachable ⟨0, 10, 1, 5050, 101, 0⟩ ∧
    ¬ ((⟨0, 10, 1, 5050, 101, 0⟩ : MarioState).rtt_cnt ≤ SAMPLE_SIZE) :=
  ⟨reachable_of_run (Reachable.init s0)
      (by decide :
        run (tcp_mario_init s0) (List.replicate 101 (Event.pktsAcked 1 50000)) =
          Except.ok ⟨0, 10, 1, 5050, 101, 0⟩),
   by decide⟩

/-- C4 (amended): in every state reachable from a connection init by any
sequence of RTT-sample deliveries and controller operations, the sample
count is at most 101 (one past the batch size). -/
theorem C4_count_invariant (s : MarioState) (h : Reachable s) :
    s.rtt_cnt ≤ SAMPLE_SIZE + 1 := by
  induction h with
  | init s =>
    show (0 : Nat) ≤ SAMPLE_SIZE + 1
    omega
  | step s s' e hs hstep ih =>
    cases e with
    | init =>
      injection hstep with hstep
      subst hstep
      show (0 : Nat) ≤ SAMPLE_SIZE + 1
      omega
    | congAvoid a b c =>
      injection hstep with hstep
      subst hstep
      exact ih
    | ssthresh =>
      injection hstep with hstep
      subst hstep
      exact ih
    | pktsAcked n us =>
      have hstep' : tcp_mario_pkts_acked s n us = Except.ok s' := hstep
      rcases (pkts_acked_ok_inv hstep').2 with hEq | ⟨hle, hEq⟩
      · omega
      · have := SAMPLE_SIZE_eq
        omega
    | undoCwnd =>
      injection hstep with hstep
      subst hstep
      exact ih
    | setBandwidth v =>
      injection hstep with hstep
      subst hstep
      exact ih
    | setFactor v =>
      injection hstep with hstep
      subst hstep
      exact ih

/-- C4 (witness): the amended invariant at the concrete state right
after a connection init. -/
theorem C4_count_invariant_witness :
    Reachable (tcp_mario_init s0) ∧
    (tcp_mario_init s0).rtt_cnt ≤ SAMPLE_SIZE + 1 :=
  ⟨Reachable.init s0, C4_count_invariant (tcp_mario_init s0) (Reachable.init s0)⟩

/-- C6 (counterexample): after the batch completes (target 1001), an
operator bandwidth change followed by one REJECTED sample re-runs the
recompute and moves the target to 2001 — a second recomputation with no
explicit reset, contradicting "recomputed exactly once". -/
theorem C6_counterexample :
    run s0 ([Event.setBandwidth 1000, Event.init] ++
        List.replicate 100 (Event.pktsAcked 1 50000)) =
      Except.ok ⟨1000, 10, 1001, 5000, 100, 128000⟩ ∧
    run ⟨1000, 10, 1001, 5000, 100, 128000⟩
        [Event.setBandwidth 2000, Event.pktsAcked 1 0] =
      Except.ok ⟨2000, 10, 2001, 5000, 100, 128000⟩ ∧
    (2001 : Nat) ≠ 1001 :=
  ⟨by decide, by decide, by decide⟩

/-- C6 (amended): complete recomputation schedule of `pkts_acked`.
The target is recomputed when the 100th valid sample arrives; a 101st
valid sample is still accumulated (count 101) but causes no
recomputation, and afterwards sampling is frozen until re-init; however,
every REJECTED sample delivered while the count sits exactly at 100
re-runs the recomputation. -/
theorem C6_recompute_schedule (s : MarioState) (num_acked : Nat) (rtt_us : Int) :
    (SAMPLE_SIZE < s.rtt_cnt →
      tcp_mario_pkts_acked s num_acked rtt_us = Except.ok s) ∧
    (s.rtt_cnt < SAMPLE_SIZE → ¬ sample_ok rtt_us →
      tcp_mario_pkts_acked s num_acked rtt_us = Except.ok s) ∧
    (s.rtt_cnt + 1 < SAMPLE_SIZE → sample_ok rtt_us →
      tcp_mario_pkts_acked s num_acked rtt_us =
        Except.ok { s with rtt_cnt := s.rtt_cnt + 1,
                           rtt := (s.rtt + (ms_of_us rtt_us).toNat) % U32 }) ∧
    (s.rtt_cnt + 1 = SAMPLE_SIZE → sample_ok rtt_us →
      tcp_mario_pkts_acked s num_acked rtt_us =
        Except.map
          (fun bc => { s with rtt_cnt := SAMPLE_SIZE,
                              rtt := (s.rtt + (ms_of_us rtt_us).toNat) % U32,
                              base_cwnd := bc })
          (compute_target s.bandwidth
            (((s.rtt + (ms_of_us rtt_us).toNat) % U32) / SAMPLE_SIZE) s.factor)) ∧
    (s.rtt_cnt = SAMPLE_SIZE → sample_ok rtt_us →
      tcp_mario_pkts_acked s num_acked rtt_us =
        Except.ok { s with rtt_cnt := SAMPLE_SIZE + 1,
                           rtt := (s.rtt + (ms_of_us rtt_us).toNat) % U32 }) ∧
    (s.rtt_cnt = SAMPLE_SIZE → ¬ sample_ok rtt_us →
      tcp_mario_pkts_acked s num_acked rtt_us =
        Except.map (fun bc => { s with base_cwnd := bc })
          (compute_target s.bandwidth (s.rtt / SAMPLE_SIZE) s.factor)) :=
  ⟨pkts_acked_frozen s num_acked rtt_us,
   fun h hv => pkts_acked_invalid_small s num_acked rtt_us h hv,
   fun h hv => pkts_acked_valid_small s num_acked rtt_us h hv,
   fun h hv => pkts_acked_valid_fill s num_acked rtt_us h hv,
   fun h hv => pkts_acked_valid_overfill s num_acked rtt_us h hv,
   fun h hv => pkts_acked_invalid_at_fill s num_acked rtt_us h hv⟩

/-- C6 (witness): the six cases of the recomputation schedule at
concrete states: frozen at 101, rejected below batch, accumulate below
batch, the filling 100th sample (recompute to 1001), the 101st valid
sample (no recompute), a rejected sample at count 100 (recompute again,
to 2001 after a bandwidth change). -/
theorem C6_recompute_schedule_witness :
    tcp_mario_pkts_acked ⟨0, 10, 7, 0, 101, 3⟩ 1 50000 =
      Except.ok ⟨0, 10, 7, 0, 101, 3⟩ ∧
    tcp_mario_pkts_acked ⟨0, 10, 7, 20, 5, 3⟩ 1 (-1) =
      Except.ok ⟨0, 10, 7, 20, 5, 3⟩ ∧
    tcp_mario_pkts_acked ⟨0, 10, 7, 20, 5, 3⟩ 1 50000 =
      Except.ok ⟨0, 10, 7, 70, 6, 3⟩ ∧
    tcp_mario_pkts_acked ⟨1000, 10, 7, 4950, 99, 3⟩ 1 50000 =
      Except.ok ⟨1000, 10, 1001, 5000, 100, 3⟩ ∧
    tcp_mario_pkts_acked ⟨1000, 10, 1001, 5000, 100, 3⟩ 1 50000 =
      Except.ok ⟨1000, 10, 1001, 5050, 101, 3⟩ ∧
    tcp_mario_pkts_acked ⟨2000, 10, 1001, 5000, 100, 3⟩ 1 0 =
      Except.ok ⟨2000, 10, 2001, 5000, 100, 3⟩ :=
  ⟨(C6_recompute_schedule ⟨0, 10, 7, 0, 101, 3⟩ 1 50000).1 (by decide),
   (C6_recompute_schedule ⟨0, 10, 7, 20, 5, 3⟩ 1 (-1)).2.1 (by decide) (by decide),
   (C6_recompute_schedule ⟨0, 10, 7, 20, 5, 3⟩ 1 50000).2.2.1 (by decide) (by decide),
   (C6_recompute_schedule ⟨1000, 10, 7, 4950, 99, 3⟩ 1 50000).2.2.2.1 (by decide) (by decide),
   (C6_recompute_schedule ⟨1000, 10, 1001, 5000, 100, 3⟩ 1 50000).2.2.2.2.1 (by decide) (by decide),
   (C6_recompute_schedule ⟨2000, 10, 1001, 5000, 100, 3⟩ 1 0).2.2.2.2.2 (by decide) (by decide)⟩

/-- C7 (counterexample): with bandwidth 0, average 100 ms and factor 1
the recomputed target is 2, not the claimed 1: the shift count
`10 * 100 / (1 * 1000)` is 1, so the target is `(1 + 0) << 1 = 2`. -/
theorem C7_counterexample :
    compute_target 0 100 1 = Except.ok 2 ∧ (2 : Nat) ≠ 1 :=
  ⟨rfl, by decide⟩

/-- C7 (amended): for a positive, unwrapped scale factor and an average
in the valid sample range the recompute is a total function given by
`((1 + bandwidth) * 2 ^ (10*avg/(factor*1000))) mod 2^32`; it is ≥ 1
whenever that product does not wrap, and at bandwidth 0 it equals
`2 ^ (10*avg/(factor*1000))` — a value ≥ 1, but equal to 1 only when the
shift count is 0. -/
theorem C7_target_positive (b avg f : Nat) (hf : 0 < f)
    (hfw : f * 1000 < U32) (havg : avg < 300) :
    compute_target b avg f =
      Except.ok (((1 + b) * 2 ^ (10 * avg / (f * 1000))) % U32) ∧
    ((1 + b) * 2 ^ (10 * avg / (f * 1000)) < U32 →
      1 ≤ ((1 + b) * 2 ^ (10 * avg / (f * 1000))) % U32) ∧
    compute_target 0 avg f = Except.ok (2 ^ (10 * avg / (f * 1000))) ∧
    1 ≤ 2 ^ (10 * avg / (f * 1000)) := by
  have hf1000 : 1000 ≤ f * 1000 := Nat.le_mul_of_pos_left 1000 hf
  have hshift : 10 * avg / (f * 1000) < 32 := Nat.div_lt_of_lt_mul (by omega)
  have hpow1 : 1 ≤ (2 : Nat) ^ (10 * avg / (f * 1000)) := Nat.one_le_two_pow
  have hpowU : (2 : Nat) ^ (10 * avg / (f * 1000)) < U32 := by
    calc (2 : Nat) ^ (10 * avg / (f * 1000)) < 2 ^ 32 :=
          Nat.pow_lt_pow_right (by norm_num) hshift
      _ = U32 := by norm_num [U32_eq]
  refine ⟨compute_target_eq b avg f hf hfw havg, ?_, ?_, hpow1⟩
  · intro hlt
    have hpos : 0 < (1 + b) * 2 ^ (10 * avg / (f * 1000)) := by positivity
    rw [Nat.mod_eq_of_lt hlt]
    omega
  · rw [compute_target_eq 0 avg f hf hfw havg]
    have h10 : (1 + 0) * (2 : Nat) ^ (10 * avg / (f * 1000)) =
        2 ^ (10 * avg / (f * 1000)) := by ring
    rw [h10, Nat.mod_eq_of_lt hpowU]

/-- C7 (witness): the amended facts at bandwidth 5, average 200 ms,
factor 2 (shift count 1, target 12). -/
theorem C7_target_positive_witness :
    compute_target 5 200 2 =
      Except.ok (((1 + 5) * 2 ^ (10 * 200 / (2 * 1000))) % U32) ∧
    1 ≤ (2 : Nat) ^ (10 * 200 / (2 * 1000)) :=
  ⟨(C7_target_positive 5 200 2 (by decide) (by decide) (by decide)).1,
   (C7_target_positive 5 200 2 (by decide) (by decide) (by decide)).2.2.2⟩

/-- C10: `pkts_acked` never touches the socket's active window: every
successful call leaves `snd_cwnd` exactly as it was, so a freshly
recomputed target reaches `snd_cwnd` only through a later `cong_avoid`,
`ssthresh` or `undo_cwnd` call. -/
theorem C10_pkts_acked_preserves_cwnd (s : MarioState) (num_acked : Nat)
    (rtt_us : Int) (s' : MarioState)
    (h : tcp_mario_pkts_acked s num_acked rtt_us = Except.ok s') :
    s'.snd_cwnd = s.snd_cwnd :=
  (pkts_acked_ok_inv h).1

/-- C10 (witness): a concrete delivery that accumulates a sample while
`snd_cwnd` (here 77) stays put. -/
theorem C10_pkts_acked_preserves_cwnd_witness :
    (⟨0, 10, 0, 50, 1, 77⟩ : MarioState).snd_cwnd =
      (⟨0, 10, 0, 0, 0, 77⟩ : MarioState).snd_cwnd :=
  C10_pkts_acked_preserves_cwnd ⟨0, 10, 0, 0, 0, 77⟩ 1 50000
    ⟨0, 10, 0, 50, 1, 77⟩ (by decide)
